import Mathlib

/-!
A shallow embedding of the `tantalum_unit` library: the three-tier
`ScalableInteger`, the `Unit` algebra (flatten / simplify / SI
canonicalisation) and the `Quantity` layer, together with proofs about the
behaviour documented for them.

Machine integers are embedded as `Int` with the i64 / i128 ranges made
explicit (`fits64`, `fits128`); `BigRational` values are embedded as `Rat`
(the library keeps every rational produced by `Ratio` arithmetic in reduced
canonical form, which is exactly `Rat`).  Fallible operations return
`Option`; a `panic` / `unreachable` in the Rust source is modelled as
`none` or as an explicitly-commented junk value on an unreachable arm.
-/

namespace Tantalum

/-- The signed 64-bit range of the `i64` payload of `Single`
(the bounds are the literals for 2 to the 63rd power). -/
abbrev fits64 (n : Int) : Prop :=
  -9223372036854775808 ≤ n ∧ n < 9223372036854775808

/-- The signed 128-bit range of the `i128` payload of `Double`
(the bounds are the literals for 2 to the 127th power). -/
abbrev fits128 (n : Int) : Prop :=
  -170141183460469231731687303715884105728 ≤ n ∧ n < 170141183460469231731687303715884105728

/-- The three width tiers of `ScalableInteger`: `Single(i64)`,
`Double(i128)`, `Big(BigInt)`.  Payloads are embedded as `Int`. -/
inductive ScalableInteger where
  | Single (n : Int)
  | Double (n : Int)
  | Big (n : Int)
deriving DecidableEq

namespace ScalableInteger

/-- The mathematical integer represented by a `ScalableInteger`. -/
def toInt : ScalableInteger → Int
  | Single n => n
  | Double n => n
  | Big n => n

/-- Discriminant rank of the tier, in declaration order
(`Single` before `Double` before `Big`), as used by Rust's derived
`PartialOrd` / `Ord`. -/
def tier : ScalableInteger → Nat
  | Single _ => 0
  | Double _ => 1
  | Big _ => 2

/-- `ScalableInteger::max_size`: widen both operands to the larger of their
two tiers (widening keeps the payload value). -/
def max_size : ScalableInteger → ScalableInteger → ScalableInteger × ScalableInteger
  | Single a, Single b => (Single a, Single b)
  | Single a, Double b => (Double a, Double b)
  | Single a, Big b => (Big a, Big b)
  | Double a, Single b => (Double a, Double b)
  | Double a, Double b => (Double a, Double b)
  | Double a, Big b => (Big a, Big b)
  | Big a, Single b => (Big a, Big b)
  | Big a, Double b => (Big a, Big b)
  | Big a, Big b => (Big a, Big b)

/-- `ScalableInteger::promote_size`: move one tier up. -/
def promote_size : ScalableInteger → ScalableInteger
  | Single n => Double n
  | Double n => Big n
  | Big n => Big n

/-- `ScalableInteger::demote_size`: move to the smallest tier whose range
holds the payload (`Big` tries `i64` first, then `i128`). -/
def demote_size : ScalableInteger → ScalableInteger
  | Single n => Single n
  | Double n => if fits64 n then Single n else Double n
  | Big n => if fits64 n then Single n else if fits128 n then Double n else Big n

/-- A value is stored in the smallest tier able to represent it. -/
def isMinimal : ScalableInteger → Prop
  | Single n => fits64 n
  | Double n => ¬fits64 n ∧ fits128 n
  | Big n => ¬fits128 n

instance : (a : ScalableInteger) → Decidable (a.isMinimal)
  | Single n => inferInstanceAs (Decidable (fits64 n))
  | Double n => inferInstanceAs (Decidable (¬fits64 n ∧ fits128 n))
  | Big n => inferInstanceAs (Decidable (¬fits128 n))

/-- Well-formedness: the payload lies in the range of its tier (an invariant
of every value the Rust code can actually build). -/
def wf : ScalableInteger → Prop
  | Single n => fits64 n
  | Double n => fits128 n
  | Big _ => True

instance : (a : ScalableInteger) → Decidable (a.wf)
  | Single n => inferInstanceAs (Decidable (fits64 n))
  | Double n => inferInstanceAs (Decidable (fits128 n))
  | Big _ => inferInstanceAs (Decidable True)

/-- `Neg for ScalableInteger`: negate the payload, keeping the tier.
(There is no demotion step.  On payload `i64::MIN` / `i128::MIN` the Rust
negation would overflow; the embedding keeps the exact value.) -/
def neg : ScalableInteger → ScalableInteger
  | Single n => Single (-n)
  | Double n => Double (-n)
  | Big n => Big (-n)

/-- Literal transcription of `Add for ScalableInteger`: align, checked add,
on overflow promote both operands and retry (the recursion), demote the
result.  The unreachable mixed-tier arm (a Rust `unreachable!()`) returns a
junk value. -/
def addRec (a b : ScalableInteger) : ScalableInteger :=
  (match h : max_size a b with
   | (Single x, Single y) =>
     if fits64 (x + y) then Single (x + y)
     else addRec (Single x).promote_size (Single y).promote_size
   | (Double x, Double y) =>
     if fits128 (x + y) then Double (x + y)
     else addRec (Double x).promote_size (Double y).promote_size
   | (Big x, Big y) => Big (x + y)
   | _ => Single 0).demote_size
termination_by 2 - (max_size a b).1.tier
decreasing_by
  · rw [h]; simp [max_size, promote_size, tier]
  · rw [h]; simp [max_size, promote_size, tier]

/-- The promotion recursion of `addRec` unrolled (two promotions at most
reach `Big`, which never overflows); proved equal to `addRec` in
`addRec_eq_add` below.  This form is structural, so it evaluates. -/
def add (a b : ScalableInteger) : ScalableInteger :=
  (match max_size a b with
   | (Single x, Single y) =>
     if fits64 (x + y) then Single (x + y)
     else if fits128 (x + y) then Double (x + y)
     else Big (x + y)
   | (Double x, Double y) =>
     if fits128 (x + y) then Double (x + y)
     else Big (x + y)
   | (Big x, Big y) => Big (x + y)
   | _ => Single 0).demote_size

/-- `Sub for ScalableInteger`: `self + rhs.neg()`. -/
def sub (a b : ScalableInteger) : ScalableInteger := add a b.neg

/-- Literal transcription of `Sub` on top of the literal `addRec`. -/
def subRec (a b : ScalableInteger) : ScalableInteger := addRec a b.neg

/-- Literal transcription of `Mul for ScalableInteger` (align, checked mul,
promote on overflow, demote). -/
def mulRec (a b : ScalableInteger) : ScalableInteger :=
  (match h : max_size a b with
   | (Single x, Single y) =>
     if fits64 (x * y) then Single (x * y)
     else mulRec (Single x).promote_size (Single y).promote_size
   | (Double x, Double y) =>
     if fits128 (x * y) then Double (x * y)
     else mulRec (Double x).promote_size (Double y).promote_size
   | (Big x, Big y) => Big (x * y)
   | _ => Single 0).demote_size
termination_by 2 - (max_size a b).1.tier
decreasing_by
  · rw [h]; simp [max_size, promote_size, tier]
  · rw [h]; simp [max_size, promote_size, tier]

/-- The promotion recursion of `mulRec` unrolled; proved equal to `mulRec`
in `mulRec_eq_mul` below. -/
def mul (a b : ScalableInteger) : ScalableInteger :=
  (match max_size a b with
   | (Single x, Single y) =>
     if fits64 (x * y) then Single (x * y)
     else if fits128 (x * y) then Double (x * y)
     else Big (x * y)
   | (Double x, Double y) =>
     if fits128 (x * y) then Double (x * y)
     else Big (x * y)
   | (Big x, Big y) => Big (x * y)
   | _ => Single 0).demote_size

/-- Literal transcription of `Div for ScalableInteger`.  `checked_div`
returns `None` exactly on a zero divisor or on `MIN / -1` overflow, which
makes the code promote and retry; at the `Big` tier a zero divisor makes
the Rust `BigInt` division panic, modelled as `none`.  Fixed-width `/`
truncates towards zero (`Int.tdiv`). -/
def divRec (a b : ScalableInteger) : Option ScalableInteger :=
  (match h : max_size a b with
   | (Single x, Single y) =>
     if y = 0 ∨ (x = -9223372036854775808 ∧ y = -1) then
       divRec (Single x).promote_size (Single y).promote_size
     else some (Single (x.tdiv y))
   | (Double x, Double y) =>
     if y = 0 ∨ (x = -170141183460469231731687303715884105728 ∧ y = -1) then
       divRec (Double x).promote_size (Double y).promote_size
     else some (Double (x.tdiv y))
   | (Big x, Big y) => if y = 0 then none else some (Big (x.tdiv y))
   | _ => none).map demote_size
termination_by 2 - (max_size a b).1.tier
decreasing_by
  · rw [h]; simp [max_size, promote_size, tier]
  · rw [h]; simp [max_size, promote_size, tier]

/-- The promotion recursion of `divRec` unrolled (each overflow branch
falls through to the next tier's own check); proved equal to `divRec` in
`divRec_eq_div` below. -/
def div (a b : ScalableInteger) : Option ScalableInteger :=
  (match max_size a b with
   | (Single x, Single y) =>
     if y = 0 ∨ (x = -9223372036854775808 ∧ y = -1) then
       if y = 0 ∨ (x = -170141183460469231731687303715884105728 ∧ y = -1) then
         if y = 0 then none else some (Big (x.tdiv y))
       else some (Double (x.tdiv y))
     else some (Single (x.tdiv y))
   | (Double x, Double y) =>
     if y = 0 ∨ (x = -170141183460469231731687303715884105728 ∧ y = -1) then
       if y = 0 then none else some (Big (x.tdiv y))
     else some (Double (x.tdiv y))
   | (Big x, Big y) => if y = 0 then none else some (Big (x.tdiv y))
   | _ => none).map demote_size

/-- `Integer::gcd for ScalableInteger`: align and take the (non-negative)
gcd at the aligned tier.  No demotion step. -/
def gcd (a b : ScalableInteger) : ScalableInteger :=
  match max_size a b with
  | (Single x, Single y) => Single (Int.gcd x y : Int)
  | (Double x, Double y) => Double (Int.gcd x y : Int)
  | (Big x, Big y) => Big (Int.gcd x y : Int)
  | _ => Single 0

/-- `Integer::lcm for ScalableInteger`: align and take the (non-negative)
lcm at the aligned tier.  No demotion step. -/
def lcm (a b : ScalableInteger) : ScalableInteger :=
  match max_size a b with
  | (Single x, Single y) => Single (Int.lcm x y : Int)
  | (Double x, Double y) => Double (Int.lcm x y : Int)
  | (Big x, Big y) => Big (Int.lcm x y : Int)
  | _ => Single 0

/-- The hand-written `PartialEq for ScalableInteger`: align both operands,
then compare the payloads at the aligned tier. -/
def eq (a b : ScalableInteger) : Bool :=
  match max_size a b with
  | (Single x, Single y) => x == y
  | (Double x, Double y) => x == y
  | (Big x, Big y) => x == y
  | _ => false

/-- The `#[derive(PartialOrd, Ord)]` ordering of `ScalableInteger`:
variants compare by declaration order first (`Single < Double < Big`),
payloads are compared only within the same variant.  There is no tier
alignment here. -/
def lt (a b : ScalableInteger) : Bool :=
  match a, b with
  | Single x, Single y => decide (x < y)
  | Double x, Double y => decide (x < y)
  | Big x, Big y => decide (x < y)
  | a, b => decide (a.tier < b.tier)

end ScalableInteger

/-- The atomic unit tags of the `Unit` enum, in source declaration order.
(The Rust enum has these 77 atomic variants plus `Compound`; the embedding
separates the payload-free atoms into their own enum so that equality can
be derived, and re-exposes them as `Unit` values below.) -/
inductive Atom where
  | Newton
  | Joule
  | Ohm
  | Hertz
  | Volt
  | Kelvin
  | Celsius
  | Fahrenheit
  | Hectare
  | Tesla
  | Bit
  | Byte
  | Siemens
  | Watt
  | Liter
  | CubicInch
  | CubicFeet
  | CubicYard
  | Pint
  | Quart
  | Gallon
  | Pascal
  | Henry
  | Quecto
  | Ronto
  | Yocto
  | Zepto
  | Atto
  | Femto
  | Pico
  | Nano
  | Micro
  | Milli
  | Centi
  | Deci
  | Hecto
  | Kilo
  | Mega
  | Giga
  | Tera
  | Peta
  | Exa
  | Zetta
  | Yotta
  | Ronna
  | Quetta
  | Mole
  | Candela
  | Ampere
  | Weber
  | Kibi
  | Mebi
  | Gibi
  | Tebi
  | Pebi
  | Exbi
  | Meter
  | AU
  | Inch
  | Feet
  | Yard
  | Mile
  | NauticalMile
  | LightYear
  | Parsec
  | Coulomb
  | Gram
  | Tonne
  | Dram
  | Ounce
  | Pound
  | Farad
  | Second
  | Minute
  | Hour
  | Day
  | Month
  | Year
deriving DecidableEq

/-- A `Unit`: an atomic tag, or a `Compound` fraction made of an ordered
numerator list and an ordered denominator list. -/
inductive Unit where
  | atom : Atom → Unit
  | Compound : List Unit → List Unit → Unit

mutual

/-- Structural equality of `Unit` values (the derived `PartialEq`). -/
def Unit.decEq : (a b : Unit) → Decidable (a = b)
  | .atom x, .atom y =>
    if h : x = y then .isTrue (by rw [h]) else .isFalse (by simp [h])
  | .atom _, .Compound _ _ => .isFalse (fun h => Unit.noConfusion h)
  | .Compound _ _, .atom _ => .isFalse (fun h => Unit.noConfusion h)
  | .Compound n1 d1, .Compound n2 d2 =>
    match Unit.decEqList n1 n2, Unit.decEqList d1 d2 with
    | .isTrue h1, .isTrue h2 => .isTrue (by rw [h1, h2])
    | .isFalse h1, _ => .isFalse (by simp [h1])
    | _, .isFalse h2 => .isFalse (by simp [h2])

/-- Structural equality of `Unit` lists. -/
def Unit.decEqList : (as bs : List Unit) → Decidable (as = bs)
  | [], [] => .isTrue rfl
  | [], _ :: _ => .isFalse (fun h => List.noConfusion h)
  | _ :: _, [] => .isFalse (fun h => List.noConfusion h)
  | a :: as, b :: bs =>
    match Unit.decEq a b, Unit.decEqList as bs with
    | .isTrue h1, .isTrue h2 => .isTrue (by rw [h1, h2])
    | .isFalse h1, _ => .isFalse (by simp [h1])
    | _, .isFalse h2 => .isFalse (by simp [h2])

end

instance : DecidableEq Unit := Unit.decEq

namespace Unit

abbrev Newton : Unit := .atom .Newton
abbrev Joule : Unit := .atom .Joule
abbrev Ohm : Unit := .atom .Ohm
abbrev Hertz : Unit := .atom .Hertz
abbrev Volt : Unit := .atom .Volt
abbrev Kelvin : Unit := .atom .Kelvin
abbrev Celsius : Unit := .atom .Celsius
abbrev Fahrenheit : Unit := .atom .Fahrenheit
abbrev Hectare : Unit := .atom .Hectare
abbrev Tesla : Unit := .atom .Tesla
abbrev Bit : Unit := .atom .Bit
abbrev Byte : Unit := .atom .Byte
abbrev Siemens : Unit := .atom .Siemens
abbrev Watt : Unit := .atom .Watt
abbrev Liter : Unit := .atom .Liter
abbrev CubicInch : Unit := .atom .CubicInch
abbrev CubicFeet : Unit := .atom .CubicFeet
abbrev CubicYard : Unit := .atom .CubicYard
abbrev Pint : Unit := .atom .Pint
abbrev Quart : Unit := .atom .Quart
abbrev Gallon : Unit := .atom .Gallon
abbrev Pascal : Unit := .atom .Pascal
abbrev Henry : Unit := .atom .Henry
abbrev Quecto : Unit := .atom .Quecto
abbrev Ronto : Unit := .atom .Ronto
abbrev Yocto : Unit := .atom .Yocto
abbrev Zepto : Unit := .atom .Zepto
abbrev Atto : Unit := .atom .Atto
abbrev Femto : Unit := .atom .Femto
abbrev Pico : Unit := .atom .Pico
abbrev Nano : Unit := .atom .Nano
abbrev Micro : Unit := .atom .Micro
abbrev Milli : Unit := .atom .Milli
abbrev Centi : Unit := .atom .Centi
abbrev Deci : Unit := .atom .Deci
abbrev Hecto : Unit := .atom .Hecto
abbrev Kilo : Unit := .atom .Kilo
abbrev Mega : Unit := .atom .Mega
abbrev Giga : Unit := .atom .Giga
abbrev Tera : Unit := .atom .Tera
abbrev Peta : Unit := .atom .Peta
abbrev Exa : Unit := .atom .Exa
abbrev Zetta : Unit := .atom .Zetta
abbrev Yotta : Unit := .atom .Yotta
abbrev Ronna : Unit := .atom .Ronna
abbrev Quetta : Unit := .atom .Quetta
abbrev Mole : Unit := .atom .Mole
abbrev Candela : Unit := .atom .Candela
abbrev Ampere : Unit := .atom .Ampere
abbrev Weber : Unit := .atom .Weber
abbrev Kibi : Unit := .atom .Kibi
abbrev Mebi : Unit := .atom .Mebi
abbrev Gibi : Unit := .atom .Gibi
abbrev Tebi : Unit := .atom .Tebi
abbrev Pebi : Unit := .atom .Pebi
abbrev Exbi : Unit := .atom .Exbi
abbrev Meter : Unit := .atom .Meter
abbrev AU : Unit := .atom .AU
abbrev Inch : Unit := .atom .Inch
abbrev Feet : Unit := .atom .Feet
abbrev Yard : Unit := .atom .Yard
abbrev Mile : Unit := .atom .Mile
abbrev NauticalMile : Unit := .atom .NauticalMile
abbrev LightYear : Unit := .atom .LightYear
abbrev Parsec : Unit := .atom .Parsec
abbrev Coulomb : Unit := .atom .Coulomb
abbrev Gram : Unit := .atom .Gram
abbrev Tonne : Unit := .atom .Tonne
abbrev Dram : Unit := .atom .Dram
abbrev Ounce : Unit := .atom .Ounce
abbrev Pound : Unit := .atom .Pound
abbrev Farad : Unit := .atom .Farad
abbrev Second : Unit := .atom .Second
abbrev Minute : Unit := .atom .Minute
abbrev Hour : Unit := .atom .Hour
abbrev Day : Unit := .atom .Day
abbrev Month : Unit := .atom .Month
abbrev Year : Unit := .atom .Year

end Unit

/-- The constant `UNITLESS`: the empty `Compound`. -/
def UNITLESS : Unit := .Compound [] []

mutual

/-- `Unit::flatten`: recursively inline nested `Compound` members.  A
nested `Compound` in the numerator contributes its numerator to the outer
numerator and its denominator to the outer denominator; one in the
denominator contributes inverted. -/
def Unit.flatten : Unit → Unit
  | .Compound numerator denominator =>
    let numC := Unit.flattenNum numerator
    let denC := Unit.flattenDen denominator
    .Compound (numC.1 ++ denC.1) (numC.2 ++ denC.2)
  | u => u

/-- The numerator loop of `Unit::flatten`: returns the contributions of the
numerator members to the (outer numerator, outer denominator), in member
order. -/
def Unit.flattenNum : List Unit → List Unit × List Unit
  | [] => ([], [])
  | u :: us =>
    let rest := Unit.flattenNum us
    match Unit.flatten u with
    | .Compound innerN innerD => (innerN ++ rest.1, innerD ++ rest.2)
    | v => (v :: rest.1, rest.2)

/-- The denominator loop of `Unit::flatten`: returns the contributions of
the denominator members to the (outer numerator, outer denominator),
inverted, in member order. -/
def Unit.flattenDen : List Unit → List Unit × List Unit
  | [] => ([], [])
  | u :: us =>
    let rest := Unit.flattenDen us
    match Unit.flatten u with
    | .Compound innerN innerD => (innerD ++ rest.1, innerN ++ rest.2)
    | v => (rest.1, v :: rest.2)

end

/-- `Iterator::position(|d| d == &x)`: index of the first element equal to
`x`, if any. -/
def position (x : Unit) : List Unit → Option Nat
  | [] => none
  | d :: ds => if d = x then some 0 else (position x ds).map (· + 1)

/-- The cancellation loop of `Unit::simplify`, processing the numerator
front to back: when the current numerator atom occurs in the denominator,
remove it and the first matching denominator occurrence and continue with
the rest; otherwise keep it.  This is the index-free form of the `while`
loop in the source; `simplifyLoop` below is the literal index-based loop
and the two are proved equal in `simplifyLoop_eq_cancel`. -/
def cancel : List Unit → List Unit → List Unit × List Unit
  | [], denom => ([], denom)
  | a :: num, denom =>
    match position a denom with
    | some pos => cancel num (denom.eraseIdx pos)
    | none =>
      let rest := cancel num denom
      (a :: rest.1, rest.2)

/-- Literal transcription of the `while i < num.len()` loop of
`Unit::simplify`: if some denominator position matches `num[i]`, remove
both elements and keep `i`; otherwise increment `i`. -/
def simplifyLoop (num denom : List Unit) (i : Nat) : List Unit × List Unit :=
  if h : i < num.length then
    match position num[i] denom with
    | some pos => simplifyLoop (num.eraseIdx i) (denom.eraseIdx pos) i
    | none => simplifyLoop num denom (i + 1)
  else (num, denom)
termination_by num.length - i
decreasing_by
  · rw [List.length_eraseIdx_of_lt h]; omega
  · omega

/-- `Unit::simplify`: flatten, cancel first-match pairs between numerator
and denominator, then collapse — an empty denominator with a single
numerator atom becomes that bare atom, otherwise the `Compound` remains. -/
def Unit.simplify (u : Unit) : Unit :=
  match u.flatten with
  | .Compound num denom =>
    match cancel num denom with
    | ([a], []) => a
    | (n, []) => .Compound n []
    | (n, d) => .Compound n d
  | v => v

/-- The behaviour of `Unit::simplify` as described: flatten, run the
literal index-based cancellation loop from `i = 0`, then apply the
collapse rules. -/
def simplifySpec (u : Unit) : Unit :=
  match u.flatten with
  | .Compound num denom =>
    match simplifyLoop num denom 0 with
    | ([a], []) => a
    | (n, []) => .Compound n []
    | (n, d) => .Compound n d
  | v => v

/-- `Unit::to_fraction`: a `Compound` splits into its two lists, a bare
atom becomes a one-element numerator. -/
def Unit.to_fraction : Unit → List Unit × List Unit
  | .Compound n d => (n, d)
  | u => ([u], [])

/-- `Mul for Unit`: concatenate the fractions and simplify. -/
def Unit.mul (a b : Unit) : Unit :=
  let f1 := a.to_fraction
  let f2 := b.to_fraction
  Unit.simplify (.Compound (f1.1 ++ f2.1) (f1.2 ++ f2.2))

/-- `Div for Unit`: multiply with the reciprocal, then simplify. -/
def Unit.div (a b : Unit) : Unit :=
  let f1 := a.to_fraction
  let f2 := b.to_fraction
  Unit.simplify (.Compound (f1.1 ++ f2.2) (f1.2 ++ f2.1))

instance : Mul Unit := ⟨Unit.mul⟩
instance : Div Unit := ⟨Unit.div⟩

/-- Helper for the table entries written as `ratio!(a, b)` in the source:
the exact rational `a / b`. -/
def ratio (a : Int) (b : Int) : Rat := (a : Rat) / (b : Rat)

/-- The atomic-unit rows of `Unit::to_si_units`: for each atom its fixed
`(offset, slope, SI-equivalent-unit-expression)` triple, transcribed from
the source table.  The `Compound` arm is unreachable from `toSiUnitsFlat`
(which handles `Compound` itself) and returns a junk triple. -/
def siAtom : Unit → Rat × Rat × Unit
  | .atom .Newton => (0, 1, (Unit.Kilo * .Gram * .Meter) / (Unit.Second * .Second))
  | .atom .Joule => (0, 1, (Unit.Kilo * .Gram * .Meter * .Meter) / (Unit.Second * .Second))
  | .atom .Ohm =>
    (0, 1, (Unit.Kilo * .Gram * .Meter * .Meter)
      / (Unit.Second * .Second * .Second * .Ampere * .Ampere))
  | .atom .Hertz => (0, 1, UNITLESS / Unit.Second)
  | .atom .Volt =>
    (0, 1, (Unit.Kilo * .Gram * .Meter * .Meter) / (Unit.Second * .Second * .Second * .Ampere))
  | .atom .Kelvin => (0, 1, Unit.Kelvin)
  | .atom .Celsius => (ratio 5463 20, 1, Unit.Kelvin)
  | .atom .Fahrenheit => (ratio 45967 100, ratio 13889 25000, Unit.Kelvin)
  | .atom .Hectare => (0, ratio 10000 1, Unit.Meter * .Meter)
  | .atom .Tesla => (0, 1, (Unit.Kilo * .Gram) / (Unit.Second * .Second * .Ampere))
  | .atom .Bit => (0, 1, Unit.Bit)
  | .atom .Byte => (0, ratio 8 1, Unit.Bit)
  | .atom .Siemens =>
    (0, 1, (Unit.Second * .Second * .Second * .Ampere * .Ampere)
      / (Unit.Kilo * .Gram * .Meter * .Meter))
  | .atom .Watt =>
    (0, 1, (Unit.Kilo * .Gram * .Meter * .Meter) / (Unit.Second * .Second * .Second))
  | .atom .Liter => (0, ratio 1 1000, Unit.Meter * .Meter * .Meter)
  | .atom .CubicInch => (0, ratio 2048383 125000000000, Unit.Meter * .Meter * .Meter)
  | .atom .CubicFeet => (0, ratio 55306341 1953125000, Unit.Meter * .Meter * .Meter)
  | .atom .CubicYard => (0, ratio 1493271207 1953125000, Unit.Meter * .Meter * .Meter)
  | .atom .Pint => (0, ratio 473176473 1000000000000, Unit.Meter * .Meter * .Meter)
  | .atom .Quart => (0, ratio 473176473 500000000000, Unit.Meter * .Meter * .Meter)
  | .atom .Gallon => (0, ratio 473176473 125000000000, Unit.Meter * .Meter * .Meter)
  | .atom .Pascal => (0, 1, (Unit.Kilo * .Gram) / (Unit.Meter * .Second * .Second))
  | .atom .Henry =>
    (0, 1, (Unit.Kilo * .Gram * .Meter * .Meter) / (Unit.Second * .Second * .Ampere * .Ampere))
  | .atom .Quecto => (0, ratio 1 1000000000000000000000000000000, UNITLESS)
  | .atom .Ronto => (0, ratio 1 1000000000000000000000000000, UNITLESS)
  | .atom .Yocto => (0, ratio 1 1000000000000000000000000, UNITLESS)
  | .atom .Zepto => (0, ratio 1 1000000000000000000000, UNITLESS)
  | .atom .Atto => (0, ratio 1 1000000000000000000, UNITLESS)
  | .atom .Femto => (0, ratio 1 1000000000000000, UNITLESS)
  | .atom .Pico => (0, ratio 1 1000000000000, UNITLESS)
  | .atom .Nano => (0, ratio 1 1000000000, UNITLESS)
  | .atom .Micro => (0, ratio 1 1000000, UNITLESS)
  | .atom .Milli => (0, ratio 1 1000, UNITLESS)
  | .atom .Centi => (0, ratio 1 100, UNITLESS)
  | .atom .Deci => (0, ratio 1 10, UNITLESS)
  | .atom .Hecto => (0, ratio 100 1, UNITLESS)
  | .atom .Kilo => (0, ratio 1000 1, UNITLESS)
  | .atom .Mega => (0, ratio 1000000 1, UNITLESS)
  | .atom .Giga => (0, ratio 1000000000 1, UNITLESS)
  | .atom .Tera => (0, ratio 1000000000000 1, UNITLESS)
  | .atom .Peta => (0, ratio 1000000000000000 1, UNITLESS)
  | .atom .Exa => (0, ratio 1000000000000000000 1, UNITLESS)
  | .atom .Zetta => (0, ratio 1000000000000000000000 1, UNITLESS)
  | .atom .Yotta => (0, ratio 1000000000000000000000000 1, UNITLESS)
  | .atom .Ronna => (0, ratio 1000000000000000000000000000 1, UNITLESS)
  | .atom .Quetta => (0, ratio 1000000000000000000000000000000 1, UNITLESS)
  | .atom .Mole => (0, 1, Unit.Mole)
  | .atom .Candela => (0, 1, Unit.Candela)
  | .atom .Ampere => (0, 1, Unit.Ampere)
  | .atom .Weber =>
    (0, 1, (Unit.Kilo * .Gram * .Meter * .Meter) / (Unit.Second * .Second * .Ampere))
  | .atom .Kibi => (0, ratio 1024 1, UNITLESS)
  | .atom .Mebi => (0, ratio 1048576 1, UNITLESS)
  | .atom .Gibi => (0, ratio 1073741824 1, UNITLESS)
  | .atom .Tebi => (0, ratio 1099511627776 1, UNITLESS)
  | .atom .Pebi => (0, ratio 1125899906842624 1, UNITLESS)
  | .atom .Exbi => (0, ratio 1152921504606846976 1, UNITLESS)
  | .atom .Meter => (0, 1, Unit.Meter)
  | .atom .AU => (0, ratio 149597870691 1, Unit.Meter)
  | .atom .Inch => (0, ratio 127 5000, Unit.Meter)
  | .atom .Feet => (0, ratio 381 1250, Unit.Meter)
  | .atom .Yard => (0, ratio 1143 1250, Unit.Meter)
  | .atom .Mile => (0, ratio 201168 125, Unit.Meter)
  | .atom .NauticalMile => (0, ratio 1852 1, Unit.Meter)
  | .atom .LightYear => (0, ratio 9460730472580800 1, Unit.Meter)
  | .atom .Parsec => (0, ratio 30857000000000000 1, Unit.Meter)
  | .atom .Coulomb => (0, 1, Unit.Second * .Ampere)
  | .atom .Gram => (0, 1, Unit.Gram)
  | .atom .Tonne => (0, ratio 1000000 1, Unit.Gram)
  | .atom .Dram => (0, ratio 17718451953 10000000000, Unit.Gram)
  | .atom .Ounce => (0, ratio 45359237 1600000, Unit.Gram)
  | .atom .Pound => (0, ratio 45359237 100000, Unit.Gram)
  | .atom .Farad =>
    (0, 1, (Unit.Second * .Second * .Second * .Second * .Ampere * .Ampere)
      / (Unit.Kilo * .Gram * .Meter * .Meter))
  | .atom .Second => (0, 1, Unit.Second)
  | .atom .Minute => (0, ratio 60 1, Unit.Second)
  | .atom .Hour => (0, ratio 3600 1, Unit.Second)
  | .atom .Day => (0, ratio 86400 1, Unit.Second)
  | .atom .Month => (0, ratio 2629746 1, Unit.Second)
  | .atom .Year => (0, ratio 31557600 1, Unit.Second)
  | .Compound n d => (0, 1, .Compound n d)

mutual

/-- The body of `Unit::to_si_units` after the initial `flatten`: an atom is
looked up in the table; a `Compound` recursively converts every member,
sums all offsets, multiplies the numerator slopes and divides by the
denominator slopes (the source keeps the running slope as an unreduced
`Ratio` and reduces once at the end — values agree in `Rat`), and
simplifies the rebuilt SI expression.  The members produced by `flatten`
are never `Compound`, so the `flatten` at the head of the recursive Rust
call is the identity there. -/
def toSiUnitsFlat : Unit → Rat × Rat × Unit
  | .Compound numerator denominator =>
    let rn := siAccum numerator
    let rd := siAccum denominator
    (rn.1 + rd.1, rn.2.1 / rd.2.1, Unit.simplify (.Compound rn.2.2 rd.2.2))
  | u => siAtom u

/-- The member loop of `Unit::to_si_units`: accumulates the offset sum, the
slope product and the list of converted member units. -/
def siAccum : List Unit → Rat × Rat × List Unit
  | [] => (0, 1, [])
  | u :: us =>
    let t := toSiUnitsFlat u
    let rest := siAccum us
    (t.1 + rest.1, t.2.1 * rest.2.1, t.2.2 :: rest.2.2)

end

/-- `Unit::to_si_units`: flatten first, then convert. -/
def Unit.to_si_units (u : Unit) : Rat × Rat × Unit := toSiUnitsFlat u.flatten

/-- `Unit::is_modifier`, transcribed exactly: the source lists
`Yocto ..= Yotta` and `Kibi ..= Exbi` and returns `false` for everything
else (including `Quecto`, `Ronto`, `Ronna` and `Quetta`). -/
def Unit.is_modifier : Unit → Bool
  | .atom .Yocto => true
  | .atom .Zepto => true
  | .atom .Atto => true
  | .atom .Femto => true
  | .atom .Pico => true
  | .atom .Nano => true
  | .atom .Micro => true
  | .atom .Milli => true
  | .atom .Centi => true
  | .atom .Deci => true
  | .atom .Hecto => true
  | .atom .Kilo => true
  | .atom .Mega => true
  | .atom .Giga => true
  | .atom .Tera => true
  | .atom .Peta => true
  | .atom .Exa => true
  | .atom .Zetta => true
  | .atom .Yotta => true
  | .atom .Kibi => true
  | .atom .Mebi => true
  | .atom .Gibi => true
  | .atom .Tebi => true
  | .atom .Pebi => true
  | .atom .Exbi => true
  | _ => false

/-- Whether a unit is an atomic tag (not a `Compound`). -/
def Unit.isAtom : Unit → Bool
  | .atom _ => true
  | .Compound _ _ => false

/-- `Unit::is_unitless`: equality with `UNITLESS`. -/
def Unit.is_unitless (u : Unit) : Bool := u = UNITLESS

/-- A `Quantity`: an exact rational magnitude paired with a unit. -/
structure Quantity where
  magnitude : Rat
  unit : Unit
deriving DecidableEq

/-- `Quantity::convert_to`: compute the SI triples of both units; fail
(recoverably, `Err(())` in the source) when the canonical SI unit
expressions differ; otherwise apply
`((magnitude + offset) * slope / slope_to) - offset_to` (the source applies
the same four operations in sequence with compound assignments). -/
def Quantity.convert_to (q : Quantity) (target : Unit) : Option Quantity :=
  let s := q.unit.to_si_units
  let t := target.to_si_units
  if s.2.2 ≠ t.2.2 then none
  else some ⟨(q.magnitude + s.1) * s.2.1 / t.2.1 - t.1, target⟩

/-- `Add for Quantity`: convert the right operand into the left operand's
unit — a failed conversion is a process-fatal `expect` panic in the source,
modelled as `none` — then add the magnitudes under the left unit. -/
def Quantity.add (a b : Quantity) : Option Quantity :=
  (b.convert_to a.unit).map fun r => ⟨a.magnitude + r.magnitude, a.unit⟩

/-- `Sub for Quantity`: like `Add` with subtraction of magnitudes. -/
def Quantity.sub (a b : Quantity) : Option Quantity :=
  (b.convert_to a.unit).map fun r => ⟨a.magnitude - r.magnitude, a.unit⟩

/-- `Mul for Quantity`: multiply magnitudes and units; total, no unit
compatibility check. -/
def Quantity.mul (a b : Quantity) : Quantity :=
  ⟨a.magnitude * b.magnitude, a.unit * b.unit⟩

/-- `Div for Quantity`: divide magnitudes and units; no unit compatibility
check.  The magnitude division is num's `Ratio` division, which builds
`Ratio::new(numer * rhs.denom, denom * rhs.numer)` and panics on a zero
denominator — that is, exactly when the right operand's magnitude is
zero; the panic is modelled as `none` like the other panics in this
file. -/
def Quantity.div (a b : Quantity) : Option Quantity :=
  if b.magnitude = 0 then none
  else some ⟨a.magnitude / b.magnitude, a.unit / b.unit⟩

/-- `Mul<BigRational> for Quantity`: scale the magnitude, keep the unit. -/
def Quantity.mulRational (q : Quantity) (r : Rat) : Quantity :=
  ⟨q.magnitude * r, q.unit⟩

/-- `Div<BigRational> for Quantity`: divide the magnitude, keep the unit. -/
def Quantity.divRational (q : Quantity) (r : Rat) : Quantity :=
  ⟨q.magnitude / r, q.unit⟩

/-- `Neg for Quantity`: negate the magnitude, keep the unit. -/
def Quantity.neg (q : Quantity) : Quantity :=
  ⟨-q.magnitude, q.unit⟩

namespace ScalableInteger

/-- Demotion is idempotent. -/
theorem demote_size_idem (a : ScalableInteger) :
    a.demote_size.demote_size = a.demote_size := by
  cases a with
  | Single n => rfl
  | Double n =>
    simp only [demote_size]
    split_ifs with h <;> simp [demote_size, h]
  | Big n =>
    simp only [demote_size]
    split_ifs with h1 h2
    · rfl
    · simp [demote_size, h1]
    · simp [demote_size, h1, h2]

/-- Demotion keeps the represented value. -/
theorem toInt_demote_size (a : ScalableInteger) :
    a.demote_size.toInt = a.toInt := by
  cases a <;> simp only [demote_size] <;> split_ifs <;> simp [toInt]

/-- The literal promote-and-retry recursion of `Add` agrees with its
unrolled form. -/
theorem addRec_eq_add (a b : ScalableInteger) : addRec a b = add a b := by
  cases a <;> cases b <;>
    simp only [addRec, add, max_size, promote_size] <;>
    (try split_ifs) <;> simp [demote_size_idem]

/-- The literal promote-and-retry recursion of `Mul` agrees with its
unrolled form. -/
theorem mulRec_eq_mul (a b : ScalableInteger) : mulRec a b = mul a b := by
  cases a <;> cases b <;>
    simp only [mulRec, mul, max_size, promote_size] <;>
    (try split_ifs) <;> simp [demote_size_idem]

/-- The literal `Sub` agrees with the unrolled `sub`. -/
theorem subRec_eq_sub (a b : ScalableInteger) : subRec a b = sub a b := by
  simp [subRec, sub, addRec_eq_add]

/-- The literal promote-and-retry recursion of `Div` agrees with its
unrolled form. -/
theorem divRec_eq_div (a b : ScalableInteger) : divRec a b = div a b := by
  cases a <;> cases b <;>
    simp only [divRec, div, max_size, promote_size] <;>
    (try split_ifs) <;>
    simp [Option.map_map, Function.comp_def, demote_size_idem]

/-- Addition computes the exact integer sum. -/
theorem toInt_add (a b : ScalableInteger) :
    (add a b).toInt = a.toInt + b.toInt := by
  cases a <;> cases b <;>
    simp only [add, max_size] <;> (try split_ifs) <;>
    simp only [toInt_demote_size] <;> simp [toInt]

/-- Multiplication computes the exact integer product. -/
theorem toInt_mul (a b : ScalableInteger) :
    (mul a b).toInt = a.toInt * b.toInt := by
  cases a <;> cases b <;>
    simp only [mul, max_size] <;> (try split_ifs) <;>
    simp only [toInt_demote_size] <;> simp [toInt]

/-- Demoting a `Big` always lands in the smallest representing tier. -/
theorem isMinimal_demote_big (n : Int) : (demote_size (Big n)).isMinimal := by
  simp only [demote_size]
  split_ifs with h1 h2
  · exact h1
  · exact ⟨h1, h2⟩
  · exact h2

/-- Demoting a `Double` whose payload fits `i128` lands in the smallest
representing tier. -/
theorem isMinimal_demote_double {n : Int} (h : fits128 n) :
    (demote_size (Double n)).isMinimal := by
  simp only [demote_size]
  split_ifs with h1
  · exact h1
  · exact ⟨h1, h⟩

/-- Demoting a `Single` whose payload fits `i64` lands in the smallest
representing tier. -/
theorem isMinimal_demote_single {n : Int} (h : fits64 n) :
    (demote_size (Single n)).isMinimal := h

/-- Every result of `add` sits in the smallest representing tier. -/
theorem add_isMinimal (a b : ScalableInteger) : (add a b).isMinimal := by
  cases a <;> cases b <;> simp only [add, max_size] <;> (try split_ifs) <;>
    first
    | exact isMinimal_demote_single ‹_›
    | exact isMinimal_demote_double ‹_›
    | exact isMinimal_demote_big _

/-- Every result of `sub` sits in the smallest representing tier. -/
theorem sub_isMinimal (a b : ScalableInteger) : (sub a b).isMinimal :=
  add_isMinimal a b.neg

/-- Every result of `mul` sits in the smallest representing tier. -/
theorem mul_isMinimal (a b : ScalableInteger) : (mul a b).isMinimal := by
  cases a <;> cases b <;> simp only [mul, max_size] <;> (try split_ifs) <;>
    first
    | exact isMinimal_demote_single ‹_›
    | exact isMinimal_demote_double ‹_›
    | exact isMinimal_demote_big _

/-- A truncating division of an in-range `i64` numerator stays in range
when `checked_div` does not report overflow. -/
theorem tdiv_fits64 {x y : Int} (hx : fits64 x) (hy : y ≠ 0)
    (hne : ¬(x = -9223372036854775808 ∧ y = -1)) : fits64 (x.tdiv y) := by
  obtain ⟨hl, hr⟩ := hx
  have habs : (x.tdiv y).natAbs = x.natAbs / y.natAbs := Int.natAbs_tdiv x y
  rcases eq_or_ne y 1 with rfl | hy1
  · simp [Int.tdiv_one]; omega
  rcases eq_or_ne y (-1) with rfl | hym1
  · have hx' : x ≠ -9223372036854775808 := fun h => hne ⟨h, rfl⟩
    have ht : x.tdiv (-1) = -x := by
      rw [show (-1 : Int) = -(1 : Int) from rfl, Int.tdiv_neg, Int.tdiv_one]
    rw [ht]; omega
  · have hy2 : 2 ≤ y.natAbs := by omega
    have h3 : x.natAbs / y.natAbs ≤ x.natAbs / 2 :=
      Nat.div_le_div_left hy2 (by omega)
    have h4 : x.natAbs ≤ 9223372036854775808 := by omega
    have h5 : x.natAbs / 2 ≤ 4611686018427387904 := by omega
    omega

/-- A truncating division of an in-range `i128` numerator stays in range
when `checked_div` does not report overflow. -/
theorem tdiv_fits128 {x y : Int} (hx : fits128 x) (hy : y ≠ 0)
    (hne : ¬(x = -170141183460469231731687303715884105728 ∧ y = -1)) :
    fits128 (x.tdiv y) := by
  obtain ⟨hl, hr⟩ := hx
  have habs : (x.tdiv y).natAbs = x.natAbs / y.natAbs := Int.natAbs_tdiv x y
  rcases eq_or_ne y 1 with rfl | hy1
  · simp [Int.tdiv_one]; omega
  rcases eq_or_ne y (-1) with rfl | hym1
  · have hx' : x ≠ -170141183460469231731687303715884105728 := fun h => hne ⟨h, rfl⟩
    have ht : x.tdiv (-1) = -x := by
      rw [show (-1 : Int) = -(1 : Int) from rfl, Int.tdiv_neg, Int.tdiv_one]
    rw [ht]; omega
  · have hy2 : 2 ≤ y.natAbs := by omega
    have h3 : x.natAbs / y.natAbs ≤ x.natAbs / 2 :=
      Nat.div_le_div_left hy2 (by omega)
    have h4 : x.natAbs ≤ 170141183460469231731687303715884105728 := by omega
    have h5 : x.natAbs / 2 ≤ 85070591730234615865843651857942052864 := by omega
    omega

/-- A 64-bit range sits inside the 128-bit range. -/
theorem fits64_fits128 {n : Int} (h : fits64 n) : fits128 n := by
  obtain ⟨h1, h2⟩ := h; constructor <;> omega

/-- Every value `div` returns on well-formed operands sits in the smallest
representing tier. -/
theorem div_isMinimal {a b r : ScalableInteger}
    (ha : a.wf) (hb : b.wf) (h : div a b = some r) : r.isMinimal := by
  cases a <;> cases b <;>
    simp only [div, max_size] at h <;>
    split_ifs at h <;>
    simp only [Option.map_none', Option.map_some', Option.some.injEq,
      reduceCtorEq] at h <;>
    subst h <;>
    first
      | exact isMinimal_demote_big _
      | exact isMinimal_demote_double (tdiv_fits128 ha (by tauto) (by tauto))
      | exact isMinimal_demote_double
          (tdiv_fits128 (fits64_fits128 ha) (by tauto) (by tauto))
      | exact isMinimal_demote_single (tdiv_fits64 ha (by tauto) (by tauto))

end ScalableInteger

open ScalableInteger in
/-- Claim C3: for every pair of `ScalableInteger` values, in any of the
three tiers, addition and multiplication terminate successfully (the
recursive promote-on-overflow definitions `addRec` / `mulRec` are total:
promotion reaches the unbounded tier after at most two steps) and return
the exact mathematical sum and product. -/
theorem claim_C3_add_mul_exact (a b : ScalableInteger) :
    (addRec a b).toInt = a.toInt + b.toInt ∧
    (mulRec a b).toInt = a.toInt * b.toInt := by
  rw [addRec_eq_add, mulRec_eq_mul]
  exact ⟨toInt_add a b, toInt_mul a b⟩

open ScalableInteger in
/-- Claim C4, counterexample: `neg`, `gcd` and `lcm` have no demotion step,
so on operands that are each stored in their smallest representing tier
they can return a value stored in a tier larger than the smallest one able
to represent it: `gcd(Single 4, Big 2^128) = Big 4`,
`neg(Double 2^63) = Double (-2^63)` (which fits `i64`), and
`lcm(Single 0, Big 2^128) = Big 0`. -/
theorem claim_C4_counterexample :
    (Single 4).isMinimal ∧
    (Big 340282366920938463463374607431768211456).isMinimal ∧
    ¬(gcd (Single 4) (Big 340282366920938463463374607431768211456)).isMinimal ∧
    (Double 9223372036854775808).isMinimal ∧
    ¬(neg (Double 9223372036854775808)).isMinimal ∧
    (Single 0).isMinimal ∧
    ¬(lcm (Single 0) (Big 340282366920938463463374607431768211456)).isMinimal := by
  decide

open ScalableInteger in
/-- Claim C4 (amended): the four arithmetic operators demote: for every
operand pair, `add`, `sub` and `mul` return a value stored in the smallest
representing tier, and whenever `div` returns a result on well-formed
operands that result is stored in the smallest representing tier; `neg`,
`gcd` and `lcm` perform no demotion and may return a non-minimal tier. -/
theorem claim_C4_amended :
    (∀ a b : ScalableInteger, (addRec a b).isMinimal) ∧
    (∀ a b : ScalableInteger, (subRec a b).isMinimal) ∧
    (∀ a b : ScalableInteger, (mulRec a b).isMinimal) ∧
    (∀ a b r : ScalableInteger, a.wf → b.wf → divRec a b = some r → r.isMinimal) := by
  refine ⟨?_, ?_, ?_, ?_⟩
  · intro a b; rw [addRec_eq_add]; exact add_isMinimal a b
  · intro a b; rw [subRec_eq_sub]; exact sub_isMinimal a b
  · intro a b; rw [mulRec_eq_mul]; exact mul_isMinimal a b
  · intro a b r ha hb h; rw [divRec_eq_div] at h; exact div_isMinimal ha hb h

open ScalableInteger in
/-- Claim C4 (amended), witness at concrete inputs:
`addRec (Single 3) (Single 4)` is minimal, and
`divRec (Single 10) (Single 3) = some (Single 3)` on well-formed operands
yields a minimal result. -/
theorem claim_C4_amended_witness :
    (addRec (Single 3) (Single 4)).isMinimal ∧
    ((Single 10).wf ∧ (Single 3).wf ∧
      divRec (Single 10) (Single 3) = some (Single 3)) ∧
    (Single 3).isMinimal := by
  have hdiv : divRec (Single 10) (Single 3) = some (Single 3) := by
    rw [divRec_eq_div]; decide
  exact ⟨claim_C4_amended.1 (Single 3) (Single 4),
    ⟨by decide, by decide, hdiv⟩,
    claim_C4_amended.2.2.2 (Single 10) (Single 3) (Single 3)
      (by decide) (by decide) hdiv⟩

open ScalableInteger in
/-- Claim C7: evaluation at the failing inputs.  The hand-written
`PartialEq` aligns tiers (`eq (Single 5) (Double 5) = true`), but the
derived `PartialOrd` / `Ord` compares the variant tag first, so it reports
`Single 5 < Double 5` for equal values, and `Single 0 < Double (-2^64)`
although the represented value of `Double (-2^64)` is smaller than `0` —
and both of those operands are minimal, hence reachable.  Ordering is not
tier-aligned as the claim states. -/
theorem claim_C7_ordering_eval :
    eq (Single 5) (Double 5) = true ∧
    lt (Single 5) (Double 5) = true ∧
    lt (Single 0) (Double (-18446744073709551616)) = true ∧
    (Double (-18446744073709551616)).toInt < (Single 0).toInt ∧
    (Single 0).isMinimal ∧
    (Double (-18446744073709551616)).isMinimal := by
  decide

/-- The element at the join point of `pre ++ a :: rest`. -/
theorem getElem_append_mid (pre rest : List Unit) (a : Unit)
    (h : pre.length < (pre ++ a :: rest).length) :
    (pre ++ a :: rest)[pre.length] = a := by
  induction pre with
  | nil => rfl
  | cons x xs ih => simpa using ih (by simp)

/-- Erasing the element at the join point of `pre ++ a :: rest`. -/
theorem eraseIdx_append_mid (pre rest : List Unit) (a : Unit) :
    (pre ++ a :: rest).eraseIdx pre.length = pre ++ rest := by
  induction pre with
  | nil => rfl
  | cons x xs ih => simpa using ih

/-- The literal index-based cancellation loop, started at index
`pre.length` of `pre ++ num`, keeps `pre` and processes `num` exactly as
the recursive `cancel` does. -/
theorem simplifyLoop_append (num : List Unit) : ∀ pre denom : List Unit,
    simplifyLoop (pre ++ num) denom pre.length
      = (pre ++ (cancel num denom).1, (cancel num denom).2) := by
  induction num with
  | nil =>
    intro pre denom
    rw [simplifyLoop]
    simp [cancel]
  | cons a rest ih =>
    intro pre denom
    rw [simplifyLoop]
    have hlt : pre.length < (pre ++ a :: rest).length := by simp
    rw [dif_pos hlt]
    simp only [getElem_append_mid]
    cases hp : position a denom with
    | some pos =>
      simp only [eraseIdx_append_mid, ih pre (denom.eraseIdx pos), cancel, hp]
    | none =>
      have h1 : pre ++ a :: rest = (pre ++ [a]) ++ rest := by simp
      have h2 : pre.length + 1 = (pre ++ [a]).length := by simp
      rw [h1, h2, ih (pre ++ [a]) denom]
      simp [cancel, hp]

/-- The cancellation loop from index `0` is the recursive `cancel`. -/
theorem simplifyLoop_eq_cancel (num denom : List Unit) :
    simplifyLoop num denom 0 = cancel num denom := by
  simpa using simplifyLoop_append num [] denom

/-- Claim C5: `simplify` first flattens, then for each numerator atom
removes one occurrence of it together with the first equal atom found
left-to-right in the denominator list (the literal index-based
`simplifyLoop`), and finally collapses: an empty denominator with exactly
one numerator atom yields that bare atom, an empty denominator with `0` or
more than one numerator atom yields a `Compound` with empty denominator,
and a nonempty denominator yields the full `Compound`. -/
theorem claim_C5_simplify_described (u : Unit) : u.simplify = simplifySpec u := by
  unfold Unit.simplify simplifySpec
  cases hf : u.flatten
  case Compound n d => simp only [simplifyLoop_eq_cancel]
  all_goals rfl

/-- Every slope in the atomic table is nonzero. -/
theorem siAtom_slope_ne_zero (u : Unit) : (siAtom u).2.1 ≠ 0 := by
  cases u with
  | Compound n d => norm_num [siAtom]
  | atom a => cases a <;> norm_num [siAtom, ratio]

mutual

/-- The slope produced by `toSiUnitsFlat` is never zero. -/
theorem toSiUnitsFlat_slope_ne_zero : ∀ u : Unit, (toSiUnitsFlat u).2.1 ≠ 0
  | .Compound n d => by
    simp only [toSiUnitsFlat]
    exact div_ne_zero (siAccum_slope_ne_zero n) (siAccum_slope_ne_zero d)
  | .atom a => siAtom_slope_ne_zero (.atom a)

/-- The slope product accumulated by `siAccum` is never zero. -/
theorem siAccum_slope_ne_zero : ∀ l : List Unit, (siAccum l).2.1 ≠ 0
  | [] => by simp [siAccum]
  | u :: us => by
    simp only [siAccum]
    exact mul_ne_zero (toSiUnitsFlat_slope_ne_zero u) (siAccum_slope_ne_zero us)

end

/-- The slope of `to_si_units` is never zero. -/
theorem to_si_units_slope_ne_zero (u : Unit) : (u.to_si_units).2.1 ≠ 0 :=
  toSiUnitsFlat_slope_ne_zero u.flatten

/-- Conversion fails exactly when the canonical SI unit expressions
differ. -/
theorem convert_to_eq_none_iff (q : Quantity) (t : Unit) :
    q.convert_to t = none ↔ (q.unit.to_si_units).2.2 ≠ (t.to_si_units).2.2 := by
  simp only [Quantity.convert_to]
  split_ifs with h <;> simp [h]

/-- Claim C1: for every `Quantity` and target unit, `convert_to` fails
(returns the recoverable error) exactly when the canonical SI unit
expressions computed by `to_si_units` for the two units differ; on success
the new magnitude is
`((old_magnitude + source_offset) * source_slope / target_slope) -
target_offset`, the offsets and slopes taken from the two `to_si_units`
triples. -/
theorem claim_C1_convert_to (q : Quantity) (t : Unit) :
    (q.convert_to t = none ↔ (q.unit.to_si_units).2.2 ≠ (t.to_si_units).2.2) ∧
    (∀ r : Quantity, q.convert_to t = some r →
      r.magnitude = (q.magnitude + (q.unit.to_si_units).1) * (q.unit.to_si_units).2.1
        / (t.to_si_units).2.1 - (t.to_si_units).1) := by
  refine ⟨convert_to_eq_none_iff q t, ?_⟩
  intro r hr
  simp only [Quantity.convert_to] at hr
  split_ifs at hr with h
  all_goals simp only [Option.some.injEq, reduceCtorEq] at hr
  all_goals rw [← hr]

/-- Claim C1, witness: `152 Meter` converts to `Inch` with the stated
magnitude (and the concrete value is `760000 / 127`), while converting
`152 Meter` to `Joule` fails because the canonical SI expressions differ. -/
theorem claim_C1_convert_to_witness :
    ((Quantity.mk 152 Unit.Meter).convert_to Unit.Inch
      = some ⟨(152 + (Unit.Meter.to_si_units).1) * (Unit.Meter.to_si_units).2.1
          / (Unit.Inch.to_si_units).2.1 - (Unit.Inch.to_si_units).1, Unit.Inch⟩) ∧
    ((Quantity.mk 152 Unit.Meter).convert_to Unit.Joule = none) ∧
    ((⟨(152 + (Unit.Meter.to_si_units).1) * (Unit.Meter.to_si_units).2.1
          / (Unit.Inch.to_si_units).2.1 - (Unit.Inch.to_si_units).1,
        Unit.Inch⟩ : Quantity).magnitude
      = (152 + (Unit.Meter.to_si_units).1) * (Unit.Meter.to_si_units).2.1
          / (Unit.Inch.to_si_units).2.1 - (Unit.Inch.to_si_units).1) ∧
    ((152 + (Unit.Meter.to_si_units).1) * (Unit.Meter.to_si_units).2.1
          / (Unit.Inch.to_si_units).2.1 - (Unit.Inch.to_si_units).1
      = 760000 / 127) := by
  refine ⟨rfl, ?_, ?_, ?_⟩
  · exact (claim_C1_convert_to ⟨152, Unit.Meter⟩ Unit.Joule).1.mpr (by decide)
  · exact (claim_C1_convert_to ⟨152, Unit.Meter⟩ Unit.Inch).2 _ rfl
  · norm_num [Unit.to_si_units, Unit.flatten, toSiUnitsFlat, siAtom, ratio]

/-- Claim C2, counterexample: dividing by a quantity with zero magnitude
aborts (num's `Ratio` division builds a fraction with denominator zero and
panics), even when the two units are identical — `a / b` does not always
succeed. -/
theorem claim_C2_counterexample :
    Quantity.div ⟨1, Unit.Meter⟩ ⟨0, Unit.Meter⟩ = none := rfl

/-- Claim C2 (amended): `Mul` on `Quantity` is total and combines the two
magnitudes and units componentwise whatever the units are; `Div` fails
exactly when the right operand's magnitude is zero — never because of a
unit mismatch — and otherwise combines the magnitudes and units
componentwise; `Add` and `Sub` fail (a process-fatal `expect`, modelled as
`none`) exactly when the canonical SI unit expressions of the two units
differ — that is, exactly when `convert_to` of the right operand into the
left operand's unit would fail. -/
theorem claim_C2_amended (a b : Quantity) :
    (a.mul b = ⟨a.magnitude * b.magnitude, a.unit.mul b.unit⟩) ∧
    (a.div b = none ↔ b.magnitude = 0) ∧
    (∀ r : Quantity, a.div b = some r →
      r = ⟨a.magnitude / b.magnitude, a.unit.div b.unit⟩) ∧
    (a.add b = none ↔ (a.unit.to_si_units).2.2 ≠ (b.unit.to_si_units).2.2) ∧
    (a.sub b = none ↔ (a.unit.to_si_units).2.2 ≠ (b.unit.to_si_units).2.2) ∧
    (a.add b = none ↔ b.convert_to a.unit = none) ∧
    (a.sub b = none ↔ b.convert_to a.unit = none) := by
  have hconv : b.convert_to a.unit = none ↔
      (a.unit.to_si_units).2.2 ≠ (b.unit.to_si_units).2.2 := by
    rw [convert_to_eq_none_iff]; exact ne_comm
  refine ⟨rfl, ?_, ?_, ?_, ?_, ?_, ?_⟩
  · simp only [Quantity.div]
    split_ifs with h <;> simp [h]
  · intro r hr
    simp only [Quantity.div] at hr
    split_ifs at hr with h
    all_goals simp only [Option.some.injEq, reduceCtorEq] at hr
    all_goals rw [← hr]
    all_goals rfl
  all_goals simp [Quantity.add, Quantity.sub, Option.map_eq_none', hconv]

/-- Claim C2 (amended), witness: with mismatched units `Meter` and
`Second` and nonzero right magnitude, division succeeds and yields the
componentwise quotient. -/
theorem claim_C2_amended_witness :
    (Quantity.div ⟨6, Unit.Meter⟩ ⟨3, Unit.Second⟩
      = some ⟨(6 : Rat) / 3, Unit.Meter.div Unit.Second⟩) ∧
    ((⟨(6 : Rat) / 3, Unit.Meter.div Unit.Second⟩ : Quantity)
      = ⟨(Quantity.mk 6 Unit.Meter).magnitude / (Quantity.mk 3 Unit.Second).magnitude,
         (Quantity.mk 6 Unit.Meter).unit.div (Quantity.mk 3 Unit.Second).unit⟩) :=
  ⟨rfl, (claim_C2_amended ⟨6, Unit.Meter⟩ ⟨3, Unit.Second⟩).2.2.1 _ rfl⟩

/-- Claim C6: for an atomic target unit whose canonical SI expression
matches that of the quantity's unit, converting and then converting back
reproduces the original magnitude (and unit) exactly. -/
theorem claim_C6_roundtrip (U : Unit) (q : Quantity) (hU : U.isAtom = true)
    (hsi : (q.unit.to_si_units).2.2 = (U.to_si_units).2.2) :
    (q.convert_to U).bind (fun q1 => q1.convert_to q.unit)
      = some ⟨q.magnitude, q.unit⟩ := by
  have hs : (q.unit.to_si_units).2.1 ≠ 0 := to_si_units_slope_ne_zero q.unit
  have hU' : (U.to_si_units).2.1 ≠ 0 := to_si_units_slope_ne_zero U
  simp only [Quantity.convert_to]
  rw [if_neg (fun hne => hne hsi)]
  simp only [Option.some_bind]
  rw [if_neg (fun hne => hne hsi.symm)]
  simp only [Option.some.injEq, Quantity.mk.injEq, and_true]
  field_simp
  ring

/-- Claim C6, witness: `152 Meter`, converted to the atomic unit `Inch`
and back, is exactly `152 Meter` again. -/
theorem claim_C6_roundtrip_witness :
    Unit.Inch.isAtom = true ∧
    ((Quantity.mk 152 Unit.Meter).unit.to_si_units).2.2
      = (Unit.Inch.to_si_units).2.2 ∧
    ((Quantity.mk 152 Unit.Meter).convert_to Unit.Inch).bind
        (fun q1 => q1.convert_to (Quantity.mk 152 Unit.Meter).unit)
      = some ⟨152, Unit.Meter⟩ :=
  ⟨rfl, by decide, claim_C6_roundtrip Unit.Inch ⟨152, Unit.Meter⟩ rfl (by decide)⟩

/-- Claim C9: a successful `convert_to` stores the target unit exactly as
the caller passed it, not flattened, simplified or canonicalised. -/
theorem claim_C9_convert_keeps_target_unit (q : Quantity) (t : Unit)
    (r : Quantity) (h : q.convert_to t = some r) : r.unit = t := by
  simp only [Quantity.convert_to] at h
  split_ifs at h with hc
  all_goals simp only [Option.some.injEq, reduceCtorEq] at h
  all_goals rw [← h]

/-- Claim C9, witness: converting `152 Meter` to `Inch` succeeds and the
resulting unit is the `Inch` that was passed in. -/
theorem claim_C9_convert_keeps_target_unit_witness :
    ((Quantity.mk 152 Unit.Meter).convert_to Unit.Inch
      = some ⟨(152 + (Unit.Meter.to_si_units).1) * (Unit.Meter.to_si_units).2.1
          / (Unit.Inch.to_si_units).2.1 - (Unit.Inch.to_si_units).1, Unit.Inch⟩) ∧
    ((⟨(152 + (Unit.Meter.to_si_units).1) * (Unit.Meter.to_si_units).2.1
          / (Unit.Inch.to_si_units).2.1 - (Unit.Inch.to_si_units).1,
        Unit.Inch⟩ : Quantity).unit = Unit.Inch) :=
  ⟨rfl, claim_C9_convert_keeps_target_unit ⟨152, Unit.Meter⟩ Unit.Inch _ rfl⟩

/-- Claim C10: multiplying a `Quantity` by a rational scalar, dividing it
by a rational scalar, and negating it leave the unit field unchanged and
only change the magnitude as stated. -/
theorem claim_C10_scalar_ops_keep_unit (q : Quantity) (r : Rat) :
    (q.mulRational r).unit = q.unit ∧ (q.mulRational r).magnitude = q.magnitude * r ∧
    (q.divRational r).unit = q.unit ∧ (q.divRational r).magnitude = q.magnitude / r ∧
    q.neg.unit = q.unit ∧ q.neg.magnitude = -q.magnitude :=
  ⟨rfl, rfl, rfl, rfl, rfl, rfl⟩

/-- Claim C8: evaluation at the failing inputs.  `is_modifier` returns
`false` for the SI prefixes `Quecto`, `Ronto`, `Ronna` and `Quetta`
(the catalog lists them under the SI modifiers and `to_si_units` gives them
dimensionless scale triples, but the `is_modifier` list stops at
`Yocto ..= Yotta`), while returning `true` for the other SI prefixes and
the IEC binary prefixes. -/
theorem claim_C8_is_modifier_eval :
    Unit.is_modifier Unit.Quecto = false ∧
    Unit.is_modifier Unit.Ronto = false ∧
    Unit.is_modifier Unit.Ronna = false ∧
    Unit.is_modifier Unit.Quetta = false ∧
    Unit.is_modifier Unit.Yocto = true ∧
    Unit.is_modifier Unit.Yotta = true ∧
    Unit.is_modifier Unit.Kibi = true ∧
    Unit.is_modifier Unit.Exbi = true ∧
    (Unit.Quecto.to_si_units).2.2 = UNITLESS := by
  refine ⟨rfl, rfl, rfl, rfl, rfl, rfl, rfl, rfl, rfl⟩

end Tantalum
